import Mathlib

/-!
Verification development for `combine_crimes_with_naptan_data.py`, a linear
ETL pipeline that loads crime-incident CSVs and NaPTAN public-transport-stop
CSVs, converts both to geospatial point tables, buffers the stops by a fixed
radius, spatially joins incidents to buffered stops, and aggregates crime
counts per (stop, crime-type).

The Python script is shallowly embedded below.  Library operations coming
from geopandas / shapely (coordinate reprojection `to_crs`, geometric
`buffer`, the `within` containment predicate, CSV reading) are abstracted as
explicit function parameters, so every theorem quantifies over all possible
behaviours of those library primitives.  Pandas operations whose semantics
the claims depend on (`groupby(...).sum()`, boolean-mask filtering, `sjoin`)
are modelled concretely on list-based tables.
-/

/-- Outcome of a Python `raise` statement, distinguishing a genuine typed
exception object from the script's `raise f"..."` statements, whose raised
value is a raw string (which CPython itself rejects at run time with
`TypeError: exceptions must derive from BaseException`). -/
inductive PyErr where
  | typedExc (name : String) (msg : String)
  | strRaised (msg : String)
  deriving DecidableEq, Repr

/-- A GeoDataFrame reduced to what the CRS-handling code observes: a CRS tag
and named geometry columns over an abstract geometry type `γ`. -/
structure GeoFrame (γ : Type) where
  crs : String
  cols : List (String × List γ)
  deriving DecidableEq, Repr

/-- Column read `gdf[name]` (empty column when absent). -/
def GeoFrame.getCol (gdf : GeoFrame γ) (name : String) : List γ :=
  ((gdf.cols.filter (fun p => p.1 = name)).head?.map Prod.snd).getD []

/-- Column assignment `gdf[name] = v` (overwrite-or-append). -/
def GeoFrame.setCol (gdf : GeoFrame γ) (name : String) (v : List γ) :
    GeoFrame γ :=
  { gdf with cols := (name, v) :: gdf.cols.filter (fun p => p.1 ≠ name) }

/-- Embedding of `check_crs` (source lines 221-242).  `conv` is the abstract
geopandas `to_crs`: it is NOT assumed to achieve the requested CRS, which is
exactly the possibility the source's post-condition checks guard against.
Source shape: return unchanged on match; otherwise convert and re-check, a
second conversion attempt, and finally `raise f"ERROR: ..."` — a raw string
raised as the exception value. -/
def check_crs (conv : GeoFrame γ → String → GeoFrame γ)
    (gdf : GeoFrame γ) (crs : String) : Except PyErr (GeoFrame γ) :=
  if gdf.crs = crs then .ok gdf
  else
    let gdf := conv gdf crs
    if gdf.crs = crs then .ok gdf
    else
      let gdf := conv gdf crs
      if gdf.crs = crs then .ok gdf
      else .error (.strRaised
        ("ERROR: Could not convert gdf from " ++ gdf.crs ++ " to " ++ crs))

/-- Embedding of `apply_point_buffer` (source lines 193-213).  `conv` is the
abstract `to_crs`, `bufferFn` the abstract shapely `buffer` (the polygonal
disc of the given radius around a point).  Source shape: convert to
EPSG:27700 when needed; if the CRS still differs, `raise f"Error: ..."` (a
raw string); otherwise add column `buffered_<geom_col>` holding the
buffered geometries and return. -/
def apply_point_buffer (conv : GeoFrame γ → String → GeoFrame γ)
    (bufferFn : γ → Nat → γ) (gdf : GeoFrame γ) (buffer_m : Nat)
    (geom_col : String) : Except PyErr (GeoFrame γ) :=
  let gdf := if gdf.crs ≠ "EPSG:27700" then conv gdf "EPSG:27700" else gdf
  if gdf.crs ≠ "EPSG:27700" then
    .error (.strRaised
      ("Error: GDF could not be converted from " ++ gdf.crs ++
        " to EPSG:27700"))
  else
    .ok (gdf.setCol ("buffered_" ++ geom_col)
      ((gdf.getCol geom_col).map (fun g => bufferFn g buffer_m)))

/-- Concrete geometry type used for witnesses: points and discs. -/
inductive Geom where
  | pt (x y : Int)
  | disc (x y : Int) (r : Nat)
  deriving DecidableEq, Repr

/-- A concrete buffer operation on `Geom`, for witnesses. -/
def discBuffer : Geom → Nat → Geom
  | .pt x y, r => .disc x y r
  | g, _ => g

/-- A `to_crs` behaviour that retags the frame, for witnesses. -/
def retagConv (gdf : GeoFrame Geom) (crs : String) : GeoFrame Geom :=
  { gdf with crs := crs }

/-- A degenerate `to_crs` behaviour that fails to retag the frame, i.e. the
CRS-metadata failure whose possibility the source's post-condition checks
anticipate. -/
def stuckConv (gdf : GeoFrame Geom) (_ : String) : GeoFrame Geom := gdf

example :
    apply_point_buffer retagConv discBuffer
        ⟨"EPSG:4326", [("geometry", [.pt 1 2])]⟩ 100 "geometry" =
      .ok ⟨"EPSG:27700",
        [("buffered_geometry", [.disc 1 2 100]), ("geometry", [.pt 1 2])]⟩ := rfl

/-- `leadsWith n h` — the character list `n` is an initial segment of `h`. -/
def leadsWith : List Char → List Char → Bool
  | [], _ => true
  | _ :: _, [] => false
  | a :: as, b :: bs => a = b && leadsWith as bs

/-- `hasSub n h` — the character list `n` occurs contiguously inside `h`. -/
def hasSub (n : List Char) : List Char → Bool
  | [] => n.isEmpty
  | c :: cs => leadsWith n (c :: cs) || hasSub n cs

/-- The eligibility test of the loaders, `".csv" in filename` — substring
containment, not a suffix check. -/
def containsCsv (filename : String) : Bool :=
  hasSub ".csv".toList filename.toList

/-- Embedding of `read_naptan_data` (source lines 39-79) over a directory
listing `files` (the result of `os.listdir`), an abstract CSV reader
`readCsv` mapping a filename to its parsed table, and an abstract
`create_geospatial_dataset` conversion `convert` over an abstract table type
`τ` and frame type `φ`.  First component: the filenames exported when
`export_geo` is set.  Second component: the returned frame — the source's
`for` loop executes `return` at the end of its first iteration, so only the
first eligible file is ever read; when no file is eligible the loop body
never runs and the function falls off the end, returning Python's `None`,
modelled as `none`. -/
def read_naptan_data (readCsv : String → τ) (convert : τ → φ)
    (export_geo : Bool) (files : List String) : List String × Option φ :=
  let stops_files := files.filter (fun f => containsCsv f)
  match stops_files with
  | [] => ([], none)
  | file :: _ =>
    let geo_stop_data := convert (readCsv file)
    let exports :=
      if export_geo then ["geo_" ++ file.replace ".csv" ".gpkg"] else []
    (exports, some geo_stop_data)

/-- Embedding of `read_and_create_geo_data` (source lines 82-163) over a
listing of subdirectories, each paired with its own file listing.  Returns
the nested per-year dictionary (as nested association lists) and the
concatenated combined table (concatenation of the converted row lists, in
listing order).  When the root directory listing is empty both results are
empty and the function returns normally — it does not fail.  `racStep` is
one iteration of the outer `for directory in crime_data_directories` loop
(lines 123-161): register the directory's year key when new, then fold over
its eligible CSV files, storing each converted table in the per-year
dictionary and appending its rows to the combined table. -/
def racStep (readCsv : String → String → List ρ)
    (acc : List (String × List (String × List ρ)) × List ρ)
    (dir : String × List String) :
    List (String × List (String × List ρ)) × List ρ :=
  let year := dir.1.take 4
  let all_data :=
    if (acc.1.filter (fun p => p.1 = year)).isEmpty then
      acc.1 ++ [(year, [])] else acc.1
  let crime_data_files := dir.2.filter (fun f => containsCsv f)
  crime_data_files.foldl
    (fun acc2 file =>
      let data := readCsv dir.1 file
      (acc2.1.map (fun p =>
        if p.1 = year then
          (p.1, p.2 ++ [(file.replace ".csv" "", data)])
        else p),
       acc2.2 ++ data))
    (all_data, acc.2)

/-- The whole of `read_and_create_geo_data`: fold `racStep` over the root
directory listing, starting from an empty dictionary and empty combined
table (source lines 108-163). -/
def read_and_create_geo_data (readCsv : String → String → List ρ)
    (dirs : List (String × List String)) :
    List (String × List (String × List ρ)) × List ρ :=
  dirs.foldl (racStep readCsv) ([], [])

example :
    read_naptan_data (fun f => [f]) (fun t => t) false
      ["Stops.csv", "other.csv", "readme.txt"] = ([], some ["Stops.csv"]) := rfl

example :
    read_naptan_data (fun f => [f]) (fun t => t) true ["readme.txt"] =
      ([], none) := rfl

example :
    read_and_create_geo_data (fun d f => [d ++ "/" ++ f])
      [("2023-01", ["a.csv", "x.txt"]), ("2023-02", ["b.csv"])] =
      ([("2023", [("a.csv".replace ".csv" "", ["2023-01/a.csv"]),
                  ("b.csv".replace ".csv" "", ["2023-02/b.csv"])])],
       ["2023-01/a.csv", "2023-02/b.csv"]) := rfl

/-- A combined-crime-table row as observed by the cleaning and joining steps
of `main`: a possibly null geometry (null when the source CSV had missing
longitude/latitude, since `gpd.points_from_xy` then yields a null geometry)
plus the attributes the later steps read.  The CRS normalisation of line 297
is a per-row geometry transformation: it preserves row count and
null-geometry status, so it is absorbed into the geometry values and the
abstract containment predicate of the join. -/
structure CrimeRow where
  crimeType : String
  month : String
  geom : Option Geom
  deriving DecidableEq, Repr

/-- A buffered NaPTAN row as observed by the join: stop identifier plus the
active buffered-polygon geometry (lines 290-294 drop the residual point
column and make `buffered_geometry` the active geometry). -/
structure StopRow where
  naptanCode : String
  buffered : Geom
  deriving DecidableEq, Repr

/-- Embedding of `gpd.sjoin(how="inner", left_df, right_df, predicate)`
(source lines 300-305): one output row per (left row, right row) pair
satisfying the predicate, carrying both sides.  The geometric predicate
(`within` on the buffered polygons) is the abstract parameter `pred`; a row
whose geometry is null satisfies no geometric predicate in geopandas, which
instantiations of `pred` are expected to respect — the pipeline theorems
below do not rely on it, since `main` filters null geometries out first. -/
def sjoin_inner (pred : α → β → Bool) (left : List α) (right : List β) :
    List (α × β) :=
  (left.map (fun l => (right.filter (fun r => pred l r)).map (fun r => (l, r)))).flatten

/-- Line 258 of `main`: the offence count printed for the combined crime
table, `len(combined_crime_data)` — taken straight after loading, before any
cleaning. -/
def reported_offence_count (combined : List CrimeRow) : Nat :=
  combined.length

/-- Line 273 of `main`: the notna mask filter on the geometry column,
`combined_crime_data[combined_crime_data[GEOMETRY_COL].notna()]`. -/
def clean_crime_data (combined : List CrimeRow) : List CrimeRow :=
  combined.filter (fun r => r.geom.isSome)

/-- Lines 275-277 of `main`: the step announced by the printed line
"Removing combined crime data for crimes > 12 months ago." — the source
contains the `print` call and nothing else.  First component: the lines
printed; second: the data after the step. -/
def remove_old_crimes_step (combined : List CrimeRow) :
    List String × List CrimeRow :=
  (["Removing combined crime data for crimes > 12 months ago."], combined)

/-- The combined crime table as handed to the buffering / join stages of
`main`: cleaned at line 273, then passed through the lines-275-277 step. -/
def crime_table_for_join (combined : List CrimeRow) : List CrimeRow :=
  (remove_old_crimes_step (clean_crime_data combined)).2

/-- Lines 299-305 of `main`: the spatial join of the (cleaned) combined
crime table against the buffered stops. -/
def crime_near_naptan_stops (withinPred : CrimeRow → StopRow → Bool)
    (combined : List CrimeRow) (stops : List StopRow) :
    List (CrimeRow × StopRow) :=
  sjoin_inner withinPred (crime_table_for_join combined) stops

/-- A pandas cell value as the aggregation observes it: numeric, string
(pandas object dtype), or null.  The joined table of lines 300-312 is viewed
through its non-geometry attribute columns (line 310 drops the geometry
column before grouping). -/
inductive Val where
  | num (n : Int)
  | str (s : String)
  | null
  deriving DecidableEq, Repr

/-- A row of the joined table: named attribute cells. -/
abbrev PRow := List (String × Val)

/-- Cell read `row[c]`: the first cell named `c` (null when absent). -/
def getVal : PRow → String → Val
  | [], _ => .null
  | p :: rest, c => if p.1 = c then p.2 else getVal rest c

/-- Cell assignment (overwrite-or-append). -/
def setField (r : PRow) (c : String) (v : Val) : PRow :=
  (c, v) :: r.filter (fun p => p.1 ≠ c)

/-- Line 306 of `main`: `crime_near_naptan_stops["crime_count"] = 1`. -/
def set_crime_count (t : List PRow) : List PRow :=
  t.map (fun r => setField r "crime_count" (.num 1))

/-- Source line 30: the grouping keys of the final aggregation. -/
def GROUPBY_COLS : List String := ["NaptanCode", "Crime type"]

/-- Pandas `+` on two cells, as applied by `.sum()` inside a group: integer
addition on numbers, concatenation on strings (the well-known behaviour of
summing an object-dtype column).  Mixed-type or null operands raise in
pandas; they are mapped to null here and exercised by no theorem — every
statement below constrains the column to be homogeneous. -/
def valAdd : Val → Val → Val
  | .num a, .num b => .num (a + b)
  | .str a, .str b => .str (a ++ b)
  | _, _ => .null

/-- Pandas `.sum()` over the cells of one group, folding `valAdd` from the
first element (an empty sum is numeric zero). -/
def sumVals : List Val → Val
  | [] => .num 0
  | v :: vs => vs.foldl valAdd v

/-- The tuple of group-key cells of a row. -/
def keyOf (cols : List String) (r : PRow) : List Val :=
  cols.map (fun c => getVal r c)

/-- Pandas `groupby` silently drops rows having a null in any group key. -/
def dropNullKeys (cols : List String) (t : List PRow) : List PRow :=
  t.filter (fun r => (keyOf cols r).all (fun v => v ≠ .null))

/-- The distinct group keys of `groupby(cols)` — one output row each.
Pandas emits them sorted; they are modelled in first-occurrence order, and
every property proved below (membership, count) is order-insensitive. -/
def groupKeys (cols : List String) (t : List PRow) : List (List Val) :=
  ((dropNullKeys cols t).map (keyOf cols)).dedup

/-- The rows of the group with key `k`. -/
def groupRows (cols : List String) (t : List PRow) (k : List Val) :
    List PRow :=
  (dropNullKeys cols t).filter (fun r => keyOf cols r = k)

/-- The `.sum()`-aggregated cell of column `c` for the group with key `k`. -/
def groupAgg (cols : List String) (t : List PRow) (k : List Val) (c : String) :
    Val :=
  sumVals ((groupRows cols t k).map (fun r => getVal r c))

/-- Lines 306-312 of `main` (key side): the keys — hence the rows — of
`crimes_per_stop = crime_near_naptan_stops.drop(columns=[GEOMETRY_COL])
.groupby(GROUPBY_COLS).sum()`.  The later line-314 column selection keeps
every row, so these are also the rows of `crimes_per_stop_filtered`. -/
def crimes_per_stop_keys (t : List PRow) : List (List Val) :=
  groupKeys GROUPBY_COLS (set_crime_count t)

/-- Lines 306-312 of `main` (cell side): the aggregated cell of column `c`
in the `crimes_per_stop` row with key `k`. -/
def crimes_per_stop_cell (t : List PRow) (k : List Val) (c : String) : Val :=
  groupAgg GROUPBY_COLS (set_crime_count t) k c

example :
    crimes_per_stop_keys
      [[("NaptanCode", .str "s1"), ("Crime type", .str "Burglary")],
       [("NaptanCode", .str "s1"), ("Crime type", .str "Burglary")],
       [("NaptanCode", .str "s1"), ("Crime type", .str "Theft")]] =
      [[.str "s1", .str "Burglary"], [.str "s1", .str "Theft"]] := by decide

example :
    crimes_per_stop_cell
      [[("NaptanCode", .str "s1"), ("Crime type", .str "Burglary")],
       [("NaptanCode", .str "s1"), ("Crime type", .str "Burglary")],
       [("NaptanCode", .str "s1"), ("Crime type", .str "Theft")]]
      [.str "s1", .str "Burglary"] "crime_count" = .num 2 := by decide

example :
    crimes_per_stop_cell
      [[("NaptanCode", .str "s1"), ("Crime type", .str "Burglary"),
        ("Location", .str "High St")],
       [("NaptanCode", .str "s1"), ("Crime type", .str "Burglary"),
        ("Location", .str "Main Rd")]]
      [.str "s1", .str "Burglary"] "Location" = .str "High StMain Rd" := by
  decide

/-- A concrete point-in-disc containment predicate on the pipeline row
types, used in witnesses: the crime point lies within the stop's buffered
disc. -/
def withinDisc (c : CrimeRow) (s : StopRow) : Bool :=
  match c.geom, s.buffered with
  | some (.pt x y), .disc cx cy r =>
    (x - cx) ^ 2 + (y - cy) ^ 2 ≤ (r : Int) ^ 2
  | _, _ => false

/-! ### Helper lemmas -/

theorem check_crs_ok_crs {conv : GeoFrame γ → String → GeoFrame γ}
    {gdf g : GeoFrame γ} {crs : String}
    (h : check_crs conv gdf crs = .ok g) : g.crs = crs := by
  by_cases h1 : gdf.crs = crs
  · simp only [check_crs, if_pos h1, Except.ok.injEq] at h
    rw [← h]; exact h1
  · by_cases h2 : (conv gdf crs).crs = crs
    · simp only [check_crs, if_neg h1, if_pos h2, Except.ok.injEq] at h
      rw [← h]; exact h2
    · by_cases h3 : (conv (conv gdf crs) crs).crs = crs
      · simp only [check_crs, if_neg h1, if_neg h2, if_pos h3,
          Except.ok.injEq] at h
        rw [← h]; exact h3
      · simp only [check_crs, if_neg h1, if_neg h2, if_neg h3] at h
        cases h

theorem sjoin_inner_cons (pred : α → β → Bool) (x : α) (xs : List α)
    (right : List β) :
    sjoin_inner pred (x :: xs) right =
      (right.filter (fun r => pred x r)).map (fun r => (x, r)) ++
        sjoin_inner pred xs right := rfl

theorem mem_sjoin_inner {pred : α → β → Bool} {left : List α}
    {right : List β} {pr : α × β} (h : pr ∈ sjoin_inner pred left right) :
    pr.1 ∈ left ∧ pr.2 ∈ right ∧ pred pr.1 pr.2 := by
  induction left with
  | nil => cases h
  | cons x xs ih =>
    rw [sjoin_inner_cons] at h
    rcases List.mem_append.mp h with h1 | h2
    · rcases List.mem_map.mp h1 with ⟨r, hr, hpr⟩
      rcases List.mem_filter.mp hr with ⟨hrmem, hpred⟩
      refine ⟨?_, ?_, ?_⟩ <;> simp [← hpr, hrmem, hpred]
    · rcases ih h2 with ⟨ha, hb, hc⟩
      exact ⟨List.mem_cons_of_mem _ ha, hb, hc⟩

theorem length_filter_add_length_filter_none (l : List CrimeRow) :
    (l.filter (fun r => r.geom.isSome)).length +
      (l.filter (fun r => r.geom.isNone)).length = l.length := by
  induction l with
  | nil => rfl
  | cons x xs ih =>
    cases hx : x.geom <;> simp [List.filter_cons, hx] <;> omega

/-! ### Claim theorems -/

/-- C1: the claim states that when the CRS still differs from the target
after attempted reprojection, `check_crs` / `apply_point_buffer` surface an
explicit typed failure rather than a raw string thrown as an exception
value.  The code does the opposite: both failure branches are `raise
f"..."`, whose raised value is a raw string (the `strRaised` constructor
here; CPython additionally rejects such a `raise` at run time with
`TypeError: exceptions must derive from BaseException`).  Evaluated below at
a concrete frame whose reprojection leaves the CRS tag unchanged. -/
theorem c1_crs_failure_raises_raw_string :
    check_crs stuckConv ⟨"EPSG:4326", []⟩ "EPSG:27700" =
      .error (.strRaised
        "ERROR: Could not convert gdf from EPSG:4326 to EPSG:27700") ∧
    apply_point_buffer stuckConv discBuffer ⟨"EPSG:4326", []⟩ 100 "geometry" =
      .error (.strRaised
        "Error: GDF could not be converted from EPSG:4326 to EPSG:27700") :=
  ⟨rfl, rfl⟩

/-- C5: `check_crs` is idempotent — running it again on any successful
result is the very same successful result (and a failure aborts the
pipeline, so composing adds nothing) — and it is a no-op on a frame already
carrying the target CRS.  Quantified over every behaviour `conv` of the
library reprojection. -/
theorem c5_check_crs_idempotent (conv : GeoFrame γ → String → GeoFrame γ)
    (gdf : GeoFrame γ) (crs : String) :
    (check_crs conv gdf crs >>= fun g => check_crs conv g crs) =
      check_crs conv gdf crs ∧
    (gdf.crs = crs → check_crs conv gdf crs = .ok gdf) := by
  constructor
  · cases e : check_crs conv gdf crs with
    | error msg => rfl
    | ok g =>
      have hg : g.crs = crs := check_crs_ok_crs e
      show check_crs conv g crs = .ok g
      unfold check_crs
      simp [hg]
  · intro h
    unfold check_crs
    simp [h]

/-- C5 witness: concrete instance with a frame already in the target CRS. -/
theorem c5_check_crs_idempotent_witness :
    check_crs retagConv ⟨"EPSG:27700", []⟩ "EPSG:27700" =
      .ok ⟨"EPSG:27700", []⟩ :=
  (c5_check_crs_idempotent retagConv ⟨"EPSG:27700", []⟩ "EPSG:27700").2 rfl

/-- C10: the step announced by "Removing combined crime data for crimes >
12 months ago." (lines 275-277) performs no date-based filtering: it only
prints that line, the combined table handed to the buffering and join
stages is exactly the notna-cleaned table, and every cleaned row — whatever
its month — reaches the join input. -/
theorem c10_no_date_filtering (combined : List CrimeRow) :
    (remove_old_crimes_step (clean_crime_data combined)).1 =
      ["Removing combined crime data for crimes > 12 months ago."] ∧
    crime_table_for_join combined = clean_crime_data combined ∧
    (∀ r ∈ combined, r.geom.isSome → r ∈ crime_table_for_join combined) := by
  refine ⟨rfl, rfl, ?_⟩
  intro r hr hg
  exact List.mem_filter.mpr ⟨hr, hg⟩

/-- C10 witness: a crime from January 2010 — far more than 12 months old —
is still present in the join input. -/
theorem c10_no_date_filtering_witness :
    (⟨"Burglary", "2010-01", some (.pt 0 0)⟩ : CrimeRow) ∈
      crime_table_for_join [⟨"Burglary", "2010-01", some (.pt 0 0)⟩] :=
  (c10_no_date_filtering [⟨"Burglary", "2010-01", some (.pt 0 0)⟩]).2.2
    ⟨"Burglary", "2010-01", some (.pt 0 0)⟩ (List.mem_singleton.mpr rfl) rfl

/-- C7: `read_naptan_data` returns the conversion of the first eligible CSV
file of the listing and of nothing else: its data result is determined by
the head of the filtered listing, and appending further files after an
eligible first file does not change the result. -/
theorem c7_first_file_only (readCsv : String → τ) (convert : τ → φ)
    (export_geo : Bool) (files : List String) :
    (read_naptan_data readCsv convert export_geo files).2 =
      ((files.filter (fun f => containsCsv f)).head?).map
        (fun f => convert (readCsv f)) ∧
    (∀ (f : String) (rest : List String), containsCsv f →
      (read_naptan_data readCsv convert export_geo (f :: rest)).2 =
        (read_naptan_data readCsv convert export_geo [f]).2) := by
  constructor
  · unfold read_naptan_data
    cases h : files.filter (fun f => containsCsv f) <;> simp [h]
  · intro f rest hf
    unfold read_naptan_data
    simp [List.filter_cons_of_pos hf]

/-- C7 witness: with two eligible files listed, the result equals the
result for the first file alone. -/
theorem c7_first_file_only_witness :
    (read_naptan_data (fun f => [f]) (fun t => t) false
      ["Stops.csv", "StopsArea.csv"]).2 =
      (read_naptan_data (fun f => [f]) (fun t => t) false ["Stops.csv"]).2 :=
  (c7_first_file_only (fun f => [f]) (fun t => t) false
    ["Stops.csv", "StopsArea.csv"]).2 "Stops.csv" ["StopsArea.csv"] (by decide)

theorem racStep_snd_of_no_csv {readCsv : String → String → List ρ}
    {dir : String × List String}
    (h : dir.2.filter (fun f => containsCsv f) = [])
    (acc : List (String × List (String × List ρ)) × List ρ) :
    (racStep readCsv acc dir).2 = acc.2 := by
  unfold racStep
  rw [h]
  rfl

theorem read_and_create_foldl_snd {readCsv : String → String → List ρ}
    {dirs : List (String × List String)}
    (h : ∀ d ∈ dirs, d.2.filter (fun f => containsCsv f) = []) :
    ∀ acc, (dirs.foldl (racStep readCsv) acc).2 = acc.2 := by
  induction dirs with
  | nil => intro acc; rfl
  | cons d ds ih =>
    intro acc
    rw [List.foldl_cons]
    rw [ih (fun x hx => h x (List.mem_cons_of_mem _ hx))]
    exact racStep_snd_of_no_csv (h d (List.mem_cons_self _ _)) acc

/-- C4 counterexample: a stops directory listing with no eligible CSV file
makes `read_naptan_data` return Python's `None` (and export nothing) — the
program continues with a `None` result instead of failing fast with a
message naming the path. -/
theorem c4_empty_stops_dir_cex :
    read_naptan_data (fun f => [f]) (fun t => t) false ["readme.txt"] =
      ([], none) := rfl

/-- C4 amended: on a directory listing with no eligible CSV file the
program does not fail fast: `read_naptan_data` falls off the end of its
`for` loop and returns `None`, and `read_and_create_geo_data` returns an
empty combined table; either degenerate result only breaks a later stage. -/
theorem c4_no_eligible_files_behaviour (readCsv : String → τ)
    (convert : τ → φ) (export_geo : Bool) (files : List String)
    (readCsv2 : String → String → List τ)
    (dirs : List (String × List String))
    (h1 : files.filter (fun f => containsCsv f) = [])
    (h2 : ∀ d ∈ dirs, d.2.filter (fun f => containsCsv f) = []) :
    read_naptan_data readCsv convert export_geo files = ([], none) ∧
    (read_and_create_geo_data readCsv2 dirs).2 = [] := by
  constructor
  · unfold read_naptan_data
    rw [h1]
  · exact read_and_create_foldl_snd h2 ([], [])

/-- C4 witness: concrete listings holding no CSV file. -/
theorem c4_no_eligible_files_behaviour_witness :
    read_naptan_data (fun f => f) (fun t => t ++ "!") true ["notes.md"] =
      ([], none) ∧
    (read_and_create_geo_data (fun d f => [d ++ "/" ++ f])
      [("2024-01", ["notes.md"])]).2 = [] :=
  c4_no_eligible_files_behaviour (fun f => f) (fun t => t ++ "!") true
    ["notes.md"] (fun d f => [d ++ "/" ++ f]) [("2024-01", ["notes.md"])]
    (by decide) (by decide)

/-- C3 counterexample: a combined table holding a single null-geometry
incident.  The offence count printed at line 258 is taken before the notna
filter of line 273, so the reported count is 1 while the claim — null rows
excluded from the reported count — demands 0. -/
theorem c3_reported_count_cex :
    reported_offence_count [⟨"Burglary", "2025-01", none⟩] = 1 ∧
    (clean_crime_data [⟨"Burglary", "2025-01", none⟩]).length = 0 := by
  decide

/-- C3 amended: null-geometry incidents never reach the spatial join — every
joined row carries a present geometry — but the combined table's reported
count, printed before the filter, includes the null-geometry rows (it equals
the cleaned count plus the null count). -/
theorem c3_null_geometry (withinPred : CrimeRow → StopRow → Bool)
    (combined : List CrimeRow) (stops : List StopRow) :
    (∀ pr ∈ crime_near_naptan_stops withinPred combined stops,
      pr.1.geom.isSome = true) ∧
    reported_offence_count combined =
      (clean_crime_data combined).length +
        (combined.filter (fun r => r.geom.isNone)).length := by
  constructor
  · intro pr hpr
    have hm := (mem_sjoin_inner hpr).1
    have hm2 : pr.1 ∈ clean_crime_data combined := hm
    exact (List.mem_filter.mp hm2).2
  · exact (length_filter_add_length_filter_none combined).symm

/-- C3 witness: a joined row of a concrete run carries a present geometry,
while the table also held a null-geometry incident. -/
theorem c3_null_geometry_witness :
    ((⟨"Burglary", "2025-01", some (.pt 0 0)⟩, ⟨"s1", .disc 0 0 100⟩) :
      CrimeRow × StopRow).1.geom.isSome = true :=
  (c3_null_geometry withinDisc
    [⟨"Burglary", "2025-01", some (.pt 0 0)⟩, ⟨"Theft", "2025-02", none⟩]
    [⟨"s1", .disc 0 0 100⟩]).1
    (⟨"Burglary", "2025-01", some (.pt 0 0)⟩, ⟨"s1", .disc 0 0 100⟩)
    (by decide)

theorem sjoin_filter_not_mem [DecidableEq α] {pred : α → β → Bool}
    {left : List α} {right : List β} {l : α} (h : l ∉ left) :
    (sjoin_inner pred left right).filter (fun pr => pr.1 = l) = [] := by
  rw [List.filter_eq_nil_iff]
  intro pr hpr
  simp only [decide_eq_true_eq]
  intro heq
  exact h (heq ▸ (mem_sjoin_inner hpr).1)

/-- C9: the spatial join is an inner containment join with intentional
fan-out — for an incident row `l` occurring once in the left table, the
joined rows carrying `l` are exactly one per stop whose buffer satisfies the
containment predicate, so their number equals the number of such stops.
Quantified over every containment predicate `pred`. -/
theorem c9_join_fanout [DecidableEq α] (pred : α → β → Bool)
    (left : List α) (right : List β) (l : α) (h : left.count l = 1) :
    (sjoin_inner pred left right).filter (fun pr => pr.1 = l) =
      (right.filter (fun r => pred l r)).map (fun r => (l, r)) ∧
    ((sjoin_inner pred left right).filter (fun pr => pr.1 = l)).length =
      (right.filter (fun r => pred l r)).length := by
  have main :
      (sjoin_inner pred left right).filter (fun pr => pr.1 = l) =
        (right.filter (fun r => pred l r)).map (fun r => (l, r)) := by
    induction left with
    | nil => simp at h
    | cons x xs ih =>
      rw [sjoin_inner_cons, List.filter_append]
      by_cases hx : x = l
      · subst hx
        have hnot : x ∉ xs := by
          rw [List.count_cons_self] at h
          exact List.count_eq_zero.mp (by omega)
        rw [sjoin_filter_not_mem hnot, List.append_nil, List.filter_map]
        simp
      · have hcount : xs.count l = 1 := by
          rwa [List.count_cons_of_ne (fun hq => hx hq.symm)] at h
        rw [ih hcount, List.filter_map]
        simp [Function.comp, hx]
  exact ⟨main, by rw [main]; exact List.length_map _ _⟩

/-- C9 witness: a point inside two overlapping 100-metre discs produces
exactly two joined rows. -/
theorem c9_join_fanout_witness :
    ((sjoin_inner withinDisc [⟨"Burglary", "2025-03", some (.pt 0 0)⟩]
        [⟨"s1", .disc 10 0 100⟩, ⟨"s2", .disc 0 20 100⟩]).filter
      (fun pr => pr.1 = ⟨"Burglary", "2025-03", some (.pt 0 0)⟩)).length = 2 :=
  ((c9_join_fanout withinDisc [⟨"Burglary", "2025-03", some (.pt 0 0)⟩]
    [⟨"s1", .disc 10 0 100⟩, ⟨"s2", .disc 0 20 100⟩]
    ⟨"Burglary", "2025-03", some (.pt 0 0)⟩ (by decide)).2).trans (by decide)

theorem GeoFrame.crs_setCol (gdf : GeoFrame γ) (n : String) (v : List γ) :
    (gdf.setCol n v).crs = gdf.crs := rfl

theorem GeoFrame.getCol_setCol_self (gdf : GeoFrame γ) (n : String)
    (v : List γ) : (gdf.setCol n v).getCol n = v := by
  unfold GeoFrame.getCol GeoFrame.setCol
  simp [List.filter_cons]

/-- C6: `apply_point_buffer` reprojects to EPSG:27700 before buffering and
then checks the result: when the post-reprojection CRS still differs from
EPSG:27700 the call fails (it raises instead of returning), and on every
successful return the frame's CRS is EPSG:27700 and the new column
`buffered_<geom_col>` holds the buffer of radius `buffer_m` applied to each
geometry of the reprojected frame's `geom_col`.  Quantified over every
behaviour of the library reprojection `conv` and buffer `bufferFn`. -/
theorem c6_apply_point_buffer_spec (conv : GeoFrame γ → String → GeoFrame γ)
    (bufferFn : γ → Nat → γ) (gdf : GeoFrame γ) (buffer_m : Nat)
    (geom_col : String) :
    ((if gdf.crs ≠ "EPSG:27700" then conv gdf "EPSG:27700" else gdf).crs ≠
        "EPSG:27700" →
      apply_point_buffer conv bufferFn gdf buffer_m geom_col =
        .error (.strRaised ("Error: GDF could not be converted from " ++
          (if gdf.crs ≠ "EPSG:27700" then conv gdf "EPSG:27700"
            else gdf).crs ++ " to EPSG:27700"))) ∧
    (∀ out, apply_point_buffer conv bufferFn gdf buffer_m geom_col =
        .ok out →
      out.crs = "EPSG:27700" ∧
      out.getCol ("buffered_" ++ geom_col) =
        ((if gdf.crs ≠ "EPSG:27700" then conv gdf "EPSG:27700"
          else gdf).getCol geom_col).map (fun g => bufferFn g buffer_m)) := by
  constructor
  · intro hne
    simp only [apply_point_buffer]
    rw [if_pos hne]
  · intro out hout
    simp only [apply_point_buffer] at hout
    by_cases hc :
        (if gdf.crs ≠ "EPSG:27700" then conv gdf "EPSG:27700" else gdf).crs =
          "EPSG:27700"
    · rw [if_neg (fun hn => hn hc)] at hout
      rw [Except.ok.injEq] at hout
      rw [← hout]
      exact ⟨hc, GeoFrame.getCol_setCol_self _ _ _⟩
    · rw [if_pos hc] at hout
      cases hout

/-- C6 witness: a failing reprojection raises; a successful run yields the
target CRS and the buffered column. -/
theorem c6_apply_point_buffer_spec_witness :
    apply_point_buffer stuckConv discBuffer
        (⟨"EPSG:4326", [("geometry", [.pt 1 2])]⟩ : GeoFrame Geom) 100
        "geometry" =
      .error (.strRaised
        "Error: GDF could not be converted from EPSG:4326 to EPSG:27700") ∧
    (⟨"EPSG:27700", [("buffered_geometry", [.disc 1 2 100]),
        ("geometry", [.pt 1 2])]⟩ : GeoFrame Geom).crs = "EPSG:27700" :=
  ⟨(c6_apply_point_buffer_spec stuckConv discBuffer
      ⟨"EPSG:4326", [("geometry", [.pt 1 2])]⟩ 100 "geometry").1 (by decide),
   ((c6_apply_point_buffer_spec retagConv discBuffer
      ⟨"EPSG:4326", [("geometry", [.pt 1 2])]⟩ 100 "geometry").2
      ⟨"EPSG:27700", [("buffered_geometry", [.disc 1 2 100]),
        ("geometry", [.pt 1 2])]⟩ rfl).1⟩

/-- Concatenation of strings in row order — the value pandas `.sum()`
produces on an object-dtype (string) column within a group. -/
def strConcat : List String → String
  | [] => ""
  | w :: rest => rest.foldl (fun a b => a ++ b) w

theorem getVal_setField_self (r : PRow) (c : String) (v : Val) :
    getVal (setField r c v) c = v := by
  simp [getVal, setField]

theorem getVal_filter_ne (r : PRow) {c c2 : String} (h : c2 ≠ c) :
    getVal (r.filter (fun p => p.1 ≠ c)) c2 = getVal r c2 := by
  induction r with
  | nil => rfl
  | cons p rest ih =>
    rw [List.filter_cons]
    by_cases hp : p.1 = c
    · have hp2 : ¬p.1 = c2 := fun hq => h (hq.symm.trans hp)
      rw [if_neg (by simp [hp])]
      rw [ih]
      simp only [getVal]
      rw [if_neg hp2]
    · rw [if_pos (by simp [hp])]
      simp only [getVal]
      rw [ih]

theorem getVal_setField_ne (r : PRow) {c c2 : String} (h : c2 ≠ c)
    (v : Val) : getVal (setField r c v) c2 = getVal r c2 := by
  have hcc : ¬c = c2 := fun hq => h hq.symm
  unfold setField
  rw [show getVal ((c, v) :: r.filter (fun p => p.1 ≠ c)) c2 =
      getVal (r.filter (fun p => p.1 ≠ c)) c2 by
    simp [getVal, hcc]]
  exact getVal_filter_ne r h

theorem keyOf_set_count (r : PRow) :
    keyOf GROUPBY_COLS (setField r "crime_count" (.num 1)) =
      keyOf GROUPBY_COLS r := by
  unfold keyOf GROUPBY_COLS
  rw [List.map_cons, List.map_cons]
  rw [getVal_setField_ne r (by decide), getVal_setField_ne r (by decide)]
  rfl

theorem dropNullKeys_set_crime_count (t : List PRow) :
    dropNullKeys GROUPBY_COLS (set_crime_count t) =
      (dropNullKeys GROUPBY_COLS t).map
        (fun r => setField r "crime_count" (.num 1)) := by
  unfold dropNullKeys set_crime_count
  rw [List.filter_map]
  congr 1
  apply List.filter_congr
  intro x _
  simp [Function.comp, keyOf_set_count]

theorem groupRows_set_crime_count (t : List PRow) (k : List Val)
    (hk : k.all (fun v => v ≠ .null) = true) :
    groupRows GROUPBY_COLS (set_crime_count t) k =
      (t.filter (fun r => keyOf GROUPBY_COLS r = k)).map
        (fun r => setField r "crime_count" (.num 1)) := by
  unfold groupRows
  rw [dropNullKeys_set_crime_count]
  unfold dropNullKeys
  rw [List.filter_map]
  rw [List.filter_filter]
  have hk2 : ∀ v ∈ k, ¬v = Val.null := by
    intro v hv
    simpa using List.all_eq_true.mp hk v hv
  congr 1
  apply List.filter_congr
  intro x _
  by_cases hx : keyOf GROUPBY_COLS x = k
  · simp only [Function.comp, keyOf_set_count, hx]
    simp [List.all_eq_true]
    exact hk2
  · simp [Function.comp, keyOf_set_count, hx]

theorem crimes_per_stop_keys_eq (t : List PRow) :
    crimes_per_stop_keys t =
      ((dropNullKeys GROUPBY_COLS t).map (keyOf GROUPBY_COLS)).dedup := by
  unfold crimes_per_stop_keys groupKeys
  rw [dropNullKeys_set_crime_count, List.map_map]
  congr 1
  apply List.map_congr_left
  intro x _
  exact keyOf_set_count x

theorem foldl_valAdd_num (a : Int) (ns : List Int) :
    (ns.map Val.num).foldl valAdd (.num a) = .num (a + ns.sum) := by
  induction ns generalizing a with
  | nil => simp
  | cons n rest ih =>
    simp only [List.map_cons, List.foldl_cons, valAdd]
    rw [ih (a + n), List.sum_cons, add_assoc]

theorem sumVals_map_num (ns : List Int) :
    sumVals (ns.map Val.num) = .num ns.sum := by
  cases ns with
  | nil => rfl
  | cons n rest =>
    simp only [List.map_cons, sumVals]
    rw [foldl_valAdd_num n rest, List.sum_cons]

theorem foldl_valAdd_str (a : String) (ws : List String) :
    (ws.map Val.str).foldl valAdd (.str a) =
      .str (ws.foldl (fun x y => x ++ y) a) := by
  induction ws generalizing a with
  | nil => rfl
  | cons w rest ih =>
    simp only [List.map_cons, List.foldl_cons, valAdd]
    exact ih (a ++ w)

theorem sumVals_map_str (w : String) (ws : List String) :
    sumVals ((w :: ws).map Val.str) = .str (strConcat (w :: ws)) := by
  simp only [List.map_cons, sumVals, strConcat]
  exact foldl_valAdd_str w ws

theorem sumVals_replicate_one (n : Nat) :
    sumVals (List.replicate n (.num 1)) = .num n := by
  cases n with
  | zero => rfl
  | succ m =>
    rw [List.replicate_succ]
    simp only [sumVals]
    have aux : ∀ (j : Nat) (a : Int),
        (List.replicate j (Val.num 1)).foldl valAdd (.num a) =
          .num (a + j) := by
      intro j
      induction j with
      | zero => intro a; simp
      | succ i ih =>
        intro a
        rw [List.replicate_succ, List.foldl_cons]
        simp only [valAdd]
        rw [ih (a + 1)]
        congr 1
        push_cast
        ring
    rw [aux m 1]
    congr 1
    omega

/-- The aggregated cell of a non-count column `c` equals the pandas sum of
the group's cells of `c`, taken over the rows of `t` whose group key is `k`
(for a null-free key `k`). -/
theorem crimes_per_stop_cell_eq_sumVals (t : List PRow) (k : List Val)
    (c : String) (hc : c ≠ "crime_count")
    (hk : k.all (fun v => v ≠ .null) = true) :
    crimes_per_stop_cell t k c =
      sumVals ((t.filter (fun r => keyOf GROUPBY_COLS r = k)).map
        (fun r => getVal r c)) := by
  unfold crimes_per_stop_cell groupAgg
  rw [groupRows_set_crime_count t k hk, List.map_map]
  congr 1
  apply List.map_congr_left
  intro r _
  exact getVal_setField_ne r hc (.num 1)

/-- The aggregated `crime_count` cell of the group with null-free key `k`
counts the joined rows carrying that key. -/
theorem crime_count_cell (t : List PRow) (k : List Val)
    (hk : k.all (fun v => v ≠ .null) = true) :
    crimes_per_stop_cell t k "crime_count" =
      .num (t.countP (fun r => keyOf GROUPBY_COLS r = k)) := by
  unfold crimes_per_stop_cell groupAgg
  rw [groupRows_set_crime_count t k hk, List.map_map]
  have hrepl :
      (t.filter (fun r => keyOf GROUPBY_COLS r = k)).map
        ((fun r => getVal r "crime_count") ∘
          (fun r => setField r "crime_count" (.num 1))) =
      List.replicate
        (t.filter (fun r => keyOf GROUPBY_COLS r = k)).length (Val.num 1) := by
    have hlen :
        ((t.filter (fun r => keyOf GROUPBY_COLS r = k)).map
          ((fun r => getVal r "crime_count") ∘
            (fun r => setField r "crime_count" (.num 1)))).length =
        (t.filter (fun r => keyOf GROUPBY_COLS r = k)).length :=
      List.length_map _ _
    rw [← hlen]
    apply List.eq_replicate_of_mem
    intro b hb
    obtain ⟨r, _, hrb⟩ := List.mem_map.mp hb
    rw [← hrb]
    exact getVal_setField_self r "crime_count" (.num 1)
  rw [hrepl, sumVals_replicate_one]
  rw [List.countP_eq_length_filter]

/-- C2 counterexample: two joined rows in one (stop, crime-type) group whose
categorical column "Location" holds "High St" and "Main Rd".  The grouping
library's `.sum()` concatenates the strings, so the aggregate holds
"High StMain Rd", not the group's first value "High St" as the claim
states. -/
theorem c2_categorical_first_value_cex :
    crimes_per_stop_cell
      [[("NaptanCode", .str "s1"), ("Crime type", .str "Burglary"),
        ("Location", .str "High St")],
       [("NaptanCode", .str "s1"), ("Crime type", .str "Burglary"),
        ("Location", .str "Main Rd")]]
      [.str "s1", .str "Burglary"] "Location" = .str "High StMain Rd" ∧
    Val.str "High StMain Rd" ≠ Val.str "High St" := by
  decide

/-- C2 amended: in the final aggregation, a non-count retained column of a
group takes the summed value when numeric and the concatenation of the
group's values in row order — pandas `.sum()` applied to strings — when
categorical (not the group's first value). -/
theorem c2_groupby_sum_behaviour (t : List PRow) (k : List Val) (c : String)
    (ns : List Int) (w : String) (ws : List String)
    (hc : c ≠ "crime_count")
    (hk : k.all (fun v => v ≠ .null) = true) :
    ((t.filter (fun r => keyOf GROUPBY_COLS r = k)).map
        (fun r => getVal r c) = ns.map Val.num →
      crimes_per_stop_cell t k c = .num ns.sum) ∧
    ((t.filter (fun r => keyOf GROUPBY_COLS r = k)).map
        (fun r => getVal r c) = (w :: ws).map Val.str →
      crimes_per_stop_cell t k c = .str (strConcat (w :: ws))) := by
  constructor
  · intro hn
    rw [crimes_per_stop_cell_eq_sumVals t k c hc hk, hn]
    exact sumVals_map_num ns
  · intro hstr
    rw [crimes_per_stop_cell_eq_sumVals t k c hc hk, hstr]
    exact sumVals_map_str w ws

/-- C2 witness: a numeric column sums, a categorical column concatenates. -/
theorem c2_groupby_sum_behaviour_witness :
    crimes_per_stop_cell
      [[("NaptanCode", .str "s2"), ("Crime type", .str "Theft"),
        ("Location", .str "A"), ("Longitude", .num 3)],
       [("NaptanCode", .str "s2"), ("Crime type", .str "Theft"),
        ("Location", .str "B"), ("Longitude", .num 4)]]
      [.str "s2", .str "Theft"] "Longitude" = .num 7 ∧
    crimes_per_stop_cell
      [[("NaptanCode", .str "s2"), ("Crime type", .str "Theft"),
        ("Location", .str "A"), ("Longitude", .num 3)],
       [("NaptanCode", .str "s2"), ("Crime type", .str "Theft"),
        ("Location", .str "B"), ("Longitude", .num 4)]]
      [.str "s2", .str "Theft"] "Location" = .str "AB" :=
  ⟨(c2_groupby_sum_behaviour
      [[("NaptanCode", .str "s2"), ("Crime type", .str "Theft"),
        ("Location", .str "A"), ("Longitude", .num 3)],
       [("NaptanCode", .str "s2"), ("Crime type", .str "Theft"),
        ("Location", .str "B"), ("Longitude", .num 4)]]
      [.str "s2", .str "Theft"] "Longitude" [3, 4] "" []
      (by decide) (by decide)).1 (by decide),
   (c2_groupby_sum_behaviour
      [[("NaptanCode", .str "s2"), ("Crime type", .str "Theft"),
        ("Location", .str "A"), ("Longitude", .num 3)],
       [("NaptanCode", .str "s2"), ("Crime type", .str "Theft"),
        ("Location", .str "B"), ("Longitude", .num 4)]]
      [.str "s2", .str "Theft"] "Location" [] "A" ["B"]
      (by decide) (by decide)).2 (by decide)⟩

/-- C8: the aggregation groups the joined rows by (NaptanCode, Crime type)
and sums the per-row unit `crime_count`: for a stop `s` whose joined rows
carry 3 incidents of crime type "Burglary" and 2 of "Theft" (and no other
type), the aggregate output has exactly two rows for that stop, with
`crime_count` 3 and 2 respectively. -/
theorem c8_aggregation_counts (t : List PRow) (s : String)
    (hs : ∀ r ∈ t, getVal r "NaptanCode" = .str s →
      getVal r "Crime type" = .str "Burglary" ∨
        getVal r "Crime type" = .str "Theft")
    (hB : t.countP
      (fun r => keyOf GROUPBY_COLS r = [.str s, .str "Burglary"]) = 3)
    (hT : t.countP
      (fun r => keyOf GROUPBY_COLS r = [.str s, .str "Theft"]) = 2) :
    ((crimes_per_stop_keys t).filter
      (fun k => k.head? = some (.str s))).length = 2 ∧
    crimes_per_stop_cell t [.str s, .str "Burglary"] "crime_count" =
      .num 3 ∧
    crimes_per_stop_cell t [.str s, .str "Theft"] "crime_count" = .num 2 := by
  refine ⟨?_, ?_, ?_⟩
  · rw [crimes_per_stop_keys_eq]
    have hnodup :
        ((((dropNullKeys GROUPBY_COLS t).map (keyOf GROUPBY_COLS)).dedup).filter
          (fun k => k.head? = some (Val.str s))).Nodup :=
      (List.nodup_dedup _).filter _
    have hinK : ∀ (ty : String),
        0 < t.countP (fun r => keyOf GROUPBY_COLS r = [.str s, .str ty]) →
        ([Val.str s, Val.str ty]) ∈
          ((dropNullKeys GROUPBY_COLS t).map (keyOf GROUPBY_COLS)) := by
      intro ty hpos
      obtain ⟨r, hrt, hrk0⟩ := List.countP_pos_iff.mp hpos
      have hrk : keyOf GROUPBY_COLS r = [Val.str s, Val.str ty] :=
        of_decide_eq_true hrk0
      apply List.mem_map.mpr
      refine ⟨r, ?_, hrk⟩
      apply List.mem_filter.mpr
      refine ⟨hrt, ?_⟩
      rw [hrk]
      simp
    have hmem : ∀ x,
        x ∈ (((dropNullKeys GROUPBY_COLS t).map (keyOf GROUPBY_COLS)).dedup).filter
            (fun k => k.head? = some (Val.str s)) ↔
          (x = [Val.str s, Val.str "Burglary"] ∨
            x = [Val.str s, Val.str "Theft"]) := by
      intro x
      constructor
      · intro hx
        obtain ⟨hxd, hxp⟩ := List.mem_filter.mp hx
        have hhead : x.head? = some (Val.str s) := of_decide_eq_true hxp
        obtain ⟨r, hr, hrx⟩ := List.mem_map.mp (List.mem_dedup.mp hxd)
        have hrt : r ∈ t := List.mem_of_mem_filter hr
        have hxeq : x = [getVal r "NaptanCode", getVal r "Crime type"] := by
          rw [← hrx]; rfl
        have hcode : getVal r "NaptanCode" = Val.str s := by
          rw [hxeq] at hhead
          simpa using hhead
        rcases hs r hrt hcode with hty | hty
        · left; rw [hxeq, hcode, hty]
        · right; rw [hxeq, hcode, hty]
      · intro hx
        have hx2 : x ∈ ((dropNullKeys GROUPBY_COLS t).map (keyOf GROUPBY_COLS)) := by
          rcases hx with hx | hx <;> rw [hx]
          · exact hinK "Burglary" (by rw [hB]; omega)
          · exact hinK "Theft" (by rw [hT]; omega)
        apply List.mem_filter.mpr
        refine ⟨List.mem_dedup.mpr hx2, ?_⟩
        rcases hx with hx | hx <;> rw [hx] <;> simp
    have hfin :
        ((((dropNullKeys GROUPBY_COLS t).map (keyOf GROUPBY_COLS)).dedup).filter
          (fun k => k.head? = some (Val.str s))).toFinset =
        ({[Val.str s, Val.str "Burglary"], [Val.str s, Val.str "Theft"]} :
          Finset (List Val)) := by
      ext x
      rw [List.mem_toFinset, hmem x]
      simp
    have hlen := List.toFinset_card_of_nodup hnodup
    rw [hfin] at hlen
    rw [← hlen]
    rw [Finset.card_insert_of_not_mem (by simp), Finset.card_singleton]
  · rw [crime_count_cell t _ (by simp), hB]
    rfl
  · rw [crime_count_cell t _ (by simp), hT]
    rfl

/-- A concrete joined table for the C8 scenario: stop "s1" with 3 Burglary
rows and 2 Theft rows, plus an unrelated stop "s2". -/
def c8table : List PRow :=
  [[("NaptanCode", .str "s1"), ("Crime type", .str "Burglary")],
   [("NaptanCode", .str "s1"), ("Crime type", .str "Burglary")],
   [("NaptanCode", .str "s1"), ("Crime type", .str "Burglary")],
   [("NaptanCode", .str "s1"), ("Crime type", .str "Theft")],
   [("NaptanCode", .str "s1"), ("Crime type", .str "Theft")],
   [("NaptanCode", .str "s2"), ("Crime type", .str "Robbery")]]

/-- C8 witness: the concrete 3-Burglary / 2-Theft scenario. -/
theorem c8_aggregation_counts_witness :
    ((crimes_per_stop_keys c8table).filter
      (fun k => k.head? = some (.str "s1"))).length = 2 ∧
    crimes_per_stop_cell c8table [.str "s1", .str "Burglary"] "crime_count" =
      .num 3 ∧
    crimes_per_stop_cell c8table [.str "s1", .str "Theft"] "crime_count" =
      .num 2 :=
  c8_aggregation_counts c8table "s1" (by decide) (by decide) (by decide)
